import Mathlib

/-!
Shallow embedding of the InVEST hydropower water-yield model
(`src/natcap/invest/hydropower/hydropower_water_yield.py`).

Per-pixel operators (`fractp_op`, `aet_op`, `wyield_op`, `pet_op`) are
element-wise numpy functions; we embed them per cell.  The real-valued
`fractp_op` uses real powers (numpy `**`), embedded with `Real.rpow`;
the remaining arithmetic (vector-attribute derivation, valuation) is
exact and embedded over `ℚ`.  Nodata sentinels are carried in a record
mirroring the source's `nodata_dict`.
-/

namespace HydropowerWaterYield

/-- Registry of nodata sentinels, mirroring `nodata_dict` built in `execute`:
keys `out_nodata` (the shared out-of-domain sentinel, `-1.0` in the source),
`precip`, `eto`, `root` (the depth-to-root-restricting-layer raster),
`pawc` and `lulc`. -/
structure NodataDict (α : Type) where
  out_nodata : α
  precip : α
  eto : α
  root : α
  pawc : α
  lulc : α

section RealOperators

open scoped Classical

/-- Embedding of `fractp_op` (per cell).  The validity mask, the Budyko
dryness index `phi`, `pet`, `awc`, the capped `climate_w`, `aet_p` and the
vegetated/non-vegetated branch follow the source line by line; `**` on
floats is embedded as `Real.rpow`. -/
noncomputable def fractp_op (Kc eto precip root soil pawc veg : ℝ)
    (nodata_dict : NodataDict ℝ) (seasonality_constant : ℝ) : ℝ :=
  if Kc ≠ nodata_dict.out_nodata ∧ eto ≠ nodata_dict.eto ∧
      precip ≠ nodata_dict.precip ∧ root ≠ nodata_dict.out_nodata ∧
      soil ≠ nodata_dict.root ∧ pawc ≠ nodata_dict.pawc ∧
      veg ≠ nodata_dict.out_nodata ∧ precip ≠ 0 then
    let phi := Kc * eto / precip
    let pet := Kc * eto
    let awc := (if root < soil then root else soil) * pawc
    let climate_w0 := awc / precip * seasonality_constant + 1.25
    let climate_w := if climate_w0 > 5 then 5 else climate_w0
    let aet_p := (1 + pet / precip) -
      (1 + (pet / precip) ^ climate_w) ^ (1 / climate_w)
    let veg_result := if phi < aet_p then phi else aet_p
    let nonveg_result :=
      (if precip < Kc * eto then precip else Kc * eto) / precip
    if veg = 1 then veg_result else nonveg_result
  else nodata_dict.out_nodata

end RealOperators

/-- Embedding of `aet_op` (per cell): `fractp * precip` where
`fractp >= 0` and `precip` is not the precipitation nodata, else the
out-of-domain sentinel. -/
def aet_op (fractp precip : ℚ) (nodata_dict : NodataDict ℚ) : ℚ :=
  if 0 ≤ fractp ∧ precip ≠ nodata_dict.precip then fractp * precip
  else nodata_dict.out_nodata

/-- Embedding of `wyield_op` (per cell): the sentinel where `fractp` is
exactly the out-of-domain sentinel or `precip` is the precipitation
nodata, else `(1 - fractp) * precip`. -/
def wyield_op (fractp precip : ℚ) (nodata_dict : NodataDict ℚ) : ℚ :=
  if fractp = nodata_dict.out_nodata ∨ precip = nodata_dict.precip then
    nodata_dict.out_nodata
  else (1 - fractp) * precip

/-- Embedding of `pet_op` (per cell): `eto_pix * Kc_pix`, sentinel where
either input is its nodata. -/
def pet_op (eto_pix Kc_pix : ℚ) (nodata_dict : NodataDict ℚ) : ℚ :=
  if eto_pix = nodata_dict.eto ∨ Kc_pix = nodata_dict.out_nodata then
    nodata_dict.out_nodata
  else eto_pix * Kc_pix

/-- Watershed (or subwatershed) polygon feature: its FID (used to key the
pickled zonal-statistics dictionaries), its `ws_id` field, its polygon
area (`geom.Area()`), and the named real-valued attribute fields, most
recent first (mirroring OGR `SetField` / `GetField`). -/
structure Feature where
  fid : ℕ
  ws_id : ℤ
  area : ℚ
  fields : List (String × ℚ)

/-- OGR `GetField`: value of a named attribute field, if present. -/
def getField (f : Feature) (name : String) : Option ℚ :=
  f.fields.lookup name

/-- OGR `SetField`: attach (or overwrite) a named attribute field. -/
def setField (f : Feature) (name : String) (v : ℚ) : Feature :=
  { f with fields := (name, v) :: f.fields }

/-- Modelled from the spec: the per-polygon statistics record produced by
the external `pygeoprocessing.zonal_statistics` collaborator (not part of
this repository): `sum`, `count`, `min`, `max` (absent when no cell was
aggregated) and `nodata_count`. -/
structure ZonalStats where
  sum : ℚ
  count : ℕ
  min : Option ℚ
  max : Option ℚ
  nodata_count : ℕ

/-- Modelled from the spec: the external `pygeoprocessing.zonal_statistics`
operation on the cells one polygon covers, parametrized by its documented
`ignore_nodata` flag — when true, nodata cells are not accounted for in
`sum`/`count`/`min`/`max`; when false every covered cell is accounted for.
`nodata_count` always counts the covered nodata cells. -/
def zonal_statistics (ignore_nodata : Bool) (nodata : Option ℚ)
    (cells : List ℚ) : ZonalStats :=
  let used := if ignore_nodata then
    cells.filter (fun c => !(some c == nodata)) else cells
  { sum := used.sum
    count := used.length
    min := used.min?
    max := used.max?
    nodata_count := (cells.filter (fun c => some c == nodata)).length }

/-- Embedding of `zonal_stats_tofile`: runs zonal statistics for every
polygon of the watershed vector over one raster and stores the per-FID
results.  The source passes `ignore_nodata=False` to
`pygeoprocessing.zonal_statistics`. -/
def zonal_stats_tofile (nodata : Option ℚ)
    (polygon_cells : List (ℕ × List ℚ)) : List (ℕ × ZonalStats) :=
  polygon_cells.map (fun p => (p.1, zonal_statistics false nodata p.2))

/-- Failures `_add_zonal_stats_dict_to_shape` can raise per feature:
a missing FID key in the pickled statistics dictionary (Python
`KeyError`), the float division `sum / count` with `count = 0` (Python
`ZeroDivisionError`), and `float(None)` for an absent min/max (Python
`TypeError`). -/
inductive AggError where
  | keyError
  | zeroDivisionError
  | typeError
deriving DecidableEq, Repr

/-- Embedding of `_add_zonal_stats_dict_to_shape`: for every feature,
look its FID up in the statistics dictionary and attach
`float(stats_map[fid]['sum']) / stats_map[fid]['count']` when
`aggregate_field_id` is `'mean'` (no guard on `count`), else the raw
statistic, as the new field `field_name`.  Python exceptions are
embedded as `Except.error`. -/
def zonal_stats_field_feature (stats_map : List (ℕ × ZonalStats))
    (field_name aggregate_field_id : String) (feature : Feature) :
    Except AggError Feature :=
  match stats_map.lookup feature.fid with
  | none => Except.error AggError.keyError
  | some st =>
    if aggregate_field_id = "mean" then
      if st.count = 0 then Except.error AggError.zeroDivisionError
      else Except.ok (setField feature field_name (st.sum / st.count))
    else if aggregate_field_id = "sum" then
      Except.ok (setField feature field_name st.sum)
    else if aggregate_field_id = "count" then
      Except.ok (setField feature field_name st.count)
    else if aggregate_field_id = "nodata_count" then
      Except.ok (setField feature field_name st.nodata_count)
    else if aggregate_field_id = "min" then
      match st.min with
      | none => Except.error AggError.typeError
      | some v => Except.ok (setField feature field_name v)
    else
      match st.max with
      | none => Except.error AggError.typeError
      | some v => Except.ok (setField feature field_name v)

def _add_zonal_stats_dict_to_shape (features : List Feature)
    (stats_map : List (ℕ × ZonalStats)) (field_name : String)
    (aggregate_field_id : String) : Except AggError (List Feature) :=
  features.mapM
    (zonal_stats_field_feature stats_map field_name aggregate_field_id)

/-- Per-feature body of the `compute_water_yield_volume` loop:
`vol = wyield_mn * geom.Area() / 1000.0`, written to `wyield_vol`.
Reading an absent field is `none`. -/
def water_yield_volume_feature (feat : Feature) : Option Feature :=
  (getField feat "wyield_mn").map (fun wyield_mn =>
    setField feat "wyield_vol" (wyield_mn * feat.area / 1000))

/-- Embedding of `compute_water_yield_volume`: adds the `wyield_vol`
field to every feature of the shapefile. -/
def compute_water_yield_volume (features : List Feature) :
    Option (List Feature) :=
  features.mapM water_yield_volume_feature

/-- Per-feature body of the `compute_rsupply_volume` loop:
`rsupply_vol = wyield_vol - consum_vol` and
`rsupply_mn = wyield_mn - consum_mn`, written to `rsupply_vl` and
`rsupply_mn`. -/
def rsupply_volume_feature (feat : Feature) : Option Feature := do
  let wyield_mn ← getField feat "wyield_mn"
  let wyield ← getField feat "wyield_vol"
  let consump_vol ← getField feat "consum_vol"
  let consump_mn ← getField feat "consum_mn"
  let rsupply_vol := wyield - consump_vol
  let rsupply_mn := wyield_mn - consump_mn
  pure (setField (setField feat "rsupply_vl" rsupply_vol)
    "rsupply_mn" rsupply_mn)

/-- Embedding of `compute_rsupply_volume`: adds the `rsupply_vl` and
`rsupply_mn` fields to every feature of the shapefile. -/
def compute_rsupply_volume (features : List Feature) :
    Option (List Feature) :=
  features.mapM rsupply_volume_feature

/-- One row of the valuation table (`val_dict[ws_id]` in the source),
with fields `efficiency`, `fraction`, `height`, `discount` (a percent),
`time_span` (a whole number of years, the exponent of `math.pow`),
`cost` and `kw_price`. -/
structure ValRow where
  efficiency : ℚ
  fraction : ℚ
  height : ℚ
  discount : ℚ
  time_span : ℕ
  cost : ℚ
  kw_price : ℚ
deriving DecidableEq, Repr

/-- Per-feature body of the `compute_watershed_valuation` loop: look the
feature's `ws_id` up in the valuation dictionary, compute
`energy = efficiency * fraction * height * rsupply_vl * 0.00272`,
the discount sum `dsum` by geometric series, and
`npv = (kw_price * energy - cost) * dsum`; write them to the
`hp_energy` and `hp_val` fields. -/
def watershed_valuation_feature (val_dict : List (ℤ × ValRow))
    (ws_feat : Feature) : Option Feature := do
  let rsupply_vl ← getField ws_feat "rsupply_vl"
  let val_row ← val_dict.lookup ws_feat.ws_id
  let energy := val_row.efficiency * val_row.fraction * val_row.height *
    rsupply_vl * 0.00272
  let disc := val_row.discount / 100
  let r := 1 / (1 + disc)
  let dsum := if r ≠ 1 then
    (1 - r ^ val_row.time_span) / (1 - r) else 0
  let npv := (val_row.kw_price * energy - val_row.cost) * dsum
  pure (setField (setField ws_feat "hp_energy" energy) "hp_val" npv)

/-- Embedding of `compute_watershed_valuation`: adds the `hp_energy` and
`hp_val` fields to every watershed feature. -/
def compute_watershed_valuation (features : List Feature)
    (val_dict : List (ℤ × ValRow)) : Option (List Feature) :=
  features.mapM (watershed_valuation_feature val_dict)

/-- One row of the biophysical table (`bio_dict[lucode]`), with the
fields the model reads: `kc`, `root_depth` and `lulc_veg`. -/
structure BioRow where
  kc : ℚ
  root_depth : ℚ
  lulc_veg : ℚ
deriving DecidableEq, Repr

/-- Embedding of the `execute` loop that breaks `bio_dict` into the
`Kc_dict`, `root_dict` and `vegetated_dict` reclassification lookups:
`Kc` and `LULC_veg` verbatim; `root_depth` verbatim when
`LULC_veg == 1.0`, else the substitute constant `1.0`. -/
def build_reclass_dicts (bio_dict : List (ℤ × BioRow)) :
    List (ℤ × ℚ) × List (ℤ × ℚ) × List (ℤ × ℚ) :=
  (bio_dict.map (fun p => (p.1, p.2.kc)),
   bio_dict.map (fun p =>
     (p.1, if p.2.lulc_veg = 1 then p.2.root_depth else 1)),
   bio_dict.map (fun p => (p.1, p.2.lulc_veg)))

/-- Embedding of `_check_missing_lucodes`: collect the distinct
land-cover codes of the clipped raster missing from `bio_lucodes` and
(when a demand table was supplied) from `demand_lucodes`; raise a
`ValueError` if any is missing.  The raised message enumerates, sorted,
first the codes missing from the biophysical table and then the codes
missing from the demand table; we carry those two sorted enumerations as
the error payload. -/
def _check_missing_lucodes (lulc_values : List ℤ)
    (demand_lucodes : Option (List ℤ)) (bio_lucodes : List ℤ) :
    Except (List ℤ × List ℤ) Unit :=
  let missing_bio_lucodes :=
    (lulc_values.filter (fun c => !(bio_lucodes.contains c))).dedup
  let missing_demand_lucodes :=
    match demand_lucodes with
    | none => []
    | some demand =>
      (lulc_values.filter (fun c => !(demand.contains c))).dedup
  if missing_bio_lucodes = [] ∧ missing_demand_lucodes = [] then
    Except.ok ()
  else
    Except.error
      (missing_bio_lucodes.mergeSort (fun a b => decide (a ≤ b)),
       missing_demand_lucodes.mergeSort (fun a b => decide (a ≤ b)))

/-- Embedding of the `execute` code that prepares the two code sets
before scheduling `_check_missing_lucodes`: the biophysical (and, when
supplied, the demand) table keys plus the land-cover raster's own nodata
sentinel. -/
def execute_lucode_check (lulc_values : List ℤ) (bio_table_codes : List ℤ)
    (demand_table_codes : Option (List ℤ)) (lulc_nodata : ℤ) :
    Except (List ℤ × List ℤ) Unit :=
  _check_missing_lucodes lulc_values
    (demand_table_codes.map (fun codes => codes ++ [lulc_nodata]))
    (bio_table_codes ++ [lulc_nodata])

/-- Tasks `execute` adds to the task graph (one representative
zonal-statistics / vector-output / table-output task per polygon set). -/
inductive TaskId where
  | alignRasterStack
  | checkMissingLucodes
  | createKcRaster
  | createRootRaster
  | createVegRaster
  | createDemandRaster
  | calculatePet
  | calculateFractp
  | calculateWyield
  | calculateAet
  | zonalStats
  | createVectorOutput
  | createTableOutput
deriving DecidableEq, Repr

/-- The `dependent_task_list` argument of each `graph.add_task` call in
`execute` (for the zonal-statistics tasks,
`dependent_tasks_for_watersheds_list` with the demand raster task
included, i.e. the run with a demand table). -/
def dependent_task_list : TaskId → List TaskId
  | TaskId.alignRasterStack => []
  | TaskId.checkMissingLucodes => [TaskId.alignRasterStack]
  | TaskId.createKcRaster =>
    [TaskId.alignRasterStack, TaskId.checkMissingLucodes]
  | TaskId.createRootRaster =>
    [TaskId.alignRasterStack, TaskId.checkMissingLucodes]
  | TaskId.createVegRaster =>
    [TaskId.alignRasterStack, TaskId.checkMissingLucodes]
  | TaskId.createDemandRaster =>
    [TaskId.alignRasterStack, TaskId.checkMissingLucodes]
  | TaskId.calculatePet => [TaskId.createKcRaster]
  | TaskId.calculateFractp =>
    [TaskId.createKcRaster, TaskId.createVegRaster,
     TaskId.createRootRaster, TaskId.alignRasterStack]
  | TaskId.calculateWyield =>
    [TaskId.calculateFractp, TaskId.alignRasterStack]
  | TaskId.calculateAet =>
    [TaskId.calculateFractp, TaskId.createVegRaster,
     TaskId.alignRasterStack]
  | TaskId.zonalStats =>
    [TaskId.calculatePet, TaskId.calculateWyield, TaskId.calculateAet,
     TaskId.createDemandRaster]
  | TaskId.createVectorOutput => [TaskId.zonalStats]
  | TaskId.createTableOutput => [TaskId.createVectorOutput]

/-- Direct dependency edge of the task graph: `s` is listed in the
`dependent_task_list` of `t`, so the scheduler runs `s` to completion
before starting `t`. -/
def dependsDirectly (t s : TaskId) : Prop := s ∈ dependent_task_list t

/-- Transitive dependency in the task graph: every task the scheduler
must complete before `t` may start. -/
def taskDependsOn (t s : TaskId) : Prop :=
  Relation.TransGen dependsDirectly t s

/-- The four reclassification tasks of `execute` (`reclassify_raster`
over the Kc, root-depth, vegetation and demand lookups). -/
def reclassifyTasks : List TaskId :=
  [TaskId.createKcRaster, TaskId.createRootRaster, TaskId.createVegRaster,
   TaskId.createDemandRaster]

/-- The four per-pixel operator tasks of `execute` (`raster_calculator`
over `pet_op`, `fractp_op`, `wyield_op` and `aet_op`). -/
def pixelOperatorTasks : List TaskId :=
  [TaskId.calculatePet, TaskId.calculateFractp, TaskId.calculateWyield,
   TaskId.calculateAet]

/-- Observable milestones of the `execute` body before and at the point
where the valuation table's `ws_id` coverage is checked:
`validateArgs` (the `validate(args)` call), `wsIdCheck` (the
valuation-table coverage loop), `makeDirectories`
(`utils.make_directories`, which creates the output directories) and
`scheduleTask` (a `graph.add_task` call). -/
inductive ExecEvent where
  | validateArgs
  | wsIdCheck
  | makeDirectories
  | scheduleTask (t : TaskId)
deriving DecidableEq, Repr

/-- Embedding of the head of `execute`, through the scheduling of the
task graph: after argument validation, when a valuation table was
supplied every `ws_id` of the watershed vector is looked up in it, and
if any is missing a `ValueError` is raised (payload: the missing ids,
sorted, as enumerated in the message) before `utils.make_directories`
and before any `graph.add_task` call.  Returns the events performed and
the error payload, if raised. -/
def execute_head (valuation_keys : Option (List ℤ))
    (watershed_ws_ids : List ℤ) : List ExecEvent × Option (List ℤ) :=
  let schedule :=
    [ExecEvent.makeDirectories] ++
      ([TaskId.alignRasterStack, TaskId.checkMissingLucodes,
        TaskId.createKcRaster, TaskId.createRootRaster,
        TaskId.createVegRaster, TaskId.calculatePet,
        TaskId.calculateFractp, TaskId.calculateWyield,
        TaskId.calculateAet, TaskId.createDemandRaster,
        TaskId.zonalStats, TaskId.createVectorOutput,
        TaskId.createTableOutput].map ExecEvent.scheduleTask)
  match valuation_keys with
  | none => ([ExecEvent.validateArgs] ++ schedule, none)
  | some keys =>
    let missing_ws_ids :=
      watershed_ws_ids.filter (fun i => !(keys.contains i))
    if missing_ws_ids = [] then
      ([ExecEvent.validateArgs, ExecEvent.wsIdCheck] ++ schedule, none)
    else
      ([ExecEvent.validateArgs, ExecEvent.wsIdCheck],
       some (missing_ws_ids.mergeSort (fun a b => decide (a ≤ b))))

/-! ### Helper lemmas -/

theorem getField_setField_same (f : Feature) (name : String) (v : ℚ) :
    getField (setField f name v) name = some v := by
  simp [getField, setField, List.lookup]

theorem getField_setField_ne (f : Feature) (name other : String) (v : ℚ)
    (h : name ≠ other) :
    getField (setField f other v) name = getField f name := by
  simp only [getField, setField]
  rw [List.lookup_cons, beq_eq_false_iff_ne.mpr h]

theorem lookup_map_snd {β γ : Type} (g : β → γ) :
    ∀ (l : List (ℤ × β)) (k : ℤ) (v : β), l.lookup k = some v →
      (l.map (fun p => (p.1, g p.2))).lookup k = some (g v) := by
  intro l
  induction l with
  | nil => intro k v h; simp at h
  | cons p l ih =>
    intro k v h
    obtain ⟨k1, v1⟩ := p
    by_cases hk : k = k1
    · subst hk
      rw [List.lookup_cons_self] at h
      cases h
      simp
    · rw [List.lookup_cons, beq_eq_false_iff_ne.mpr hk] at h
      simp only [List.map_cons]
      rw [List.lookup_cons, beq_eq_false_iff_ne.mpr hk]
      exact ih k v h

theorem mapM_option_forall₂ {α β : Type} (g : α → Option β) :
    ∀ (l : List α) (l' : List β), l.mapM g = some l' →
      List.Forall₂ (fun a b => g a = some b) l l' := by
  intro l
  induction l with
  | nil =>
    intro l' h
    simp only [List.mapM_nil, pure, Option.some.injEq] at h
    subst h
    exact List.Forall₂.nil
  | cons a l ih =>
    intro l' h
    rw [List.mapM_cons] at h
    cases hga : g a with
    | none => rw [hga] at h; simp at h
    | some b =>
      rw [hga] at h
      cases hml : l.mapM g with
      | none => rw [hml] at h; simp at h
      | some bs =>
        rw [hml] at h
        simp only [Option.bind_some, Option.pure_def, Option.bind_eq_bind,
          Option.some_bind, Option.some.injEq] at h
        subst h
        exact List.Forall₂.cons hga (ih bs hml)

theorem mapM_except_forall₂ {ε α β : Type} (g : α → Except ε β) :
    ∀ (l : List α) (l' : List β), l.mapM g = Except.ok l' →
      List.Forall₂ (fun a b => g a = Except.ok b) l l' := by
  intro l
  induction l with
  | nil =>
    intro l' h
    simp only [List.mapM_nil] at h
    cases h
    exact List.Forall₂.nil
  | cons a l ih =>
    intro l' h
    rw [List.mapM_cons] at h
    cases hga : g a with
    | error e => rw [hga] at h; simp [Except.bind, Bind.bind] at h
    | ok b =>
      rw [hga] at h
      cases hml : l.mapM g with
      | error e => rw [hml] at h; simp [Except.bind, Bind.bind] at h
      | ok bs =>
        rw [hml] at h
        simp [Except.bind, Bind.bind, pure, Except.pure] at h
        subst h
        exact List.Forall₂.cons hga (ih bs hml)

theorem mapM_except_ok_of_all {ε α β : Type} (g : α → Except ε β) :
    ∀ (l : List α), (∀ a ∈ l, ∃ b, g a = Except.ok b) →
      ∃ l', l.mapM g = Except.ok l' := by
  intro l
  induction l with
  | nil => intro _; exact ⟨[], rfl⟩
  | cons a l ih =>
    intro h
    obtain ⟨b, hb⟩ := h a (List.mem_cons_self a l)
    obtain ⟨bs, hbs⟩ := ih (fun x hx => h x (List.mem_cons_of_mem a hx))
    refine ⟨b :: bs, ?_⟩
    rw [List.mapM_cons, hb, hbs]
    rfl

theorem mapM_except_error_of_mem {ε α β : Type} (g : α → Except ε β)
    (e : ε) :
    ∀ (l : List α),
      (∀ a ∈ l, g a = Except.error e ∨ ∃ b, g a = Except.ok b) →
      (∃ a ∈ l, g a = Except.error e) →
      l.mapM g = Except.error e := by
  intro l
  induction l with
  | nil => intro _ h; simp at h
  | cons a l ih =>
    intro hall hex
    rw [List.mapM_cons]
    rcases hall a (List.mem_cons_self a l) with ha | ⟨b, hb⟩
    · rw [ha]; rfl
    · rw [hb]
      have hexl : ∃ x ∈ l, g x = Except.error e := by
        obtain ⟨x, hx, hgx⟩ := hex
        rcases List.mem_cons.mp hx with rfl | hx'
        · rw [hb] at hgx; cases hgx
        · exact ⟨x, hx', hgx⟩
      rw [ih (fun x hx => hall x (List.mem_cons_of_mem a hx)) hexl]
      rfl

theorem sorted_int_mergeSort (l : List ℤ) :
    List.Sorted (fun a b : ℤ => a ≤ b)
      (l.mergeSort (fun a b => decide (a ≤ b))) := by
  have htrans : ∀ (a b c : ℤ), decide (a ≤ b) = true →
      decide (b ≤ c) = true → decide (a ≤ c) = true := by
    intro a b c hab hbc
    simp only [decide_eq_true_eq] at hab hbc ⊢
    exact le_trans hab hbc
  have htotal : ∀ (a b : ℤ),
      (decide (a ≤ b) || decide (b ≤ a)) = true := by
    intro a b
    by_cases hab : a ≤ b
    · simp [hab]
    · simp [le_of_not_le hab]
  have h := List.sorted_mergeSort htrans htotal l
  exact List.Pairwise.imp (fun hx => by simpa using hx) h

theorem ite_lt_eq_min (a b : ℝ) : (if a < b then a else b) = min a b := by
  rcases lt_or_le a b with h | h
  · rw [if_pos h, min_eq_left (le_of_lt h)]
  · rw [if_neg (not_lt.mpr h), min_eq_right h]

/-- Budyko-style superadditivity of real powers with exponent at least
one: `1 + x ^ w ≤ (1 + x) ^ w` for `x ≥ 0`. -/
theorem one_add_rpow_le_rpow_one_add {x w : ℝ} (hx : 0 ≤ x)
    (hw : 1 ≤ w) : 1 + x ^ w ≤ (1 + x) ^ w := by
  lift x to NNReal using hx with y
  have h := NNReal.add_rpow_le_rpow_add 1 y hw
  rw [NNReal.one_rpow] at h
  exact_mod_cast h

/-- Evaluation of `fractp_op` on a valid cell: the if-expressions of the
source become `min`s and the capped exponent becomes
`min (awc / precip * seasonality + 1.25) 5`. -/
theorem fractp_op_eq_of_valid (Kc eto precip root soil pawc veg : ℝ)
    (nodata_dict : NodataDict ℝ) (seasonality_constant : ℝ)
    (h1 : Kc ≠ nodata_dict.out_nodata) (h2 : eto ≠ nodata_dict.eto)
    (h3 : precip ≠ nodata_dict.precip)
    (h4 : root ≠ nodata_dict.out_nodata) (h5 : soil ≠ nodata_dict.root)
    (h6 : pawc ≠ nodata_dict.pawc) (h7 : veg ≠ nodata_dict.out_nodata)
    (h8 : precip ≠ 0) :
    fractp_op Kc eto precip root soil pawc veg nodata_dict
        seasonality_constant =
      if veg = 1 then
        min (Kc * eto / precip)
          ((1 + Kc * eto / precip) -
            (1 + (Kc * eto / precip) ^
                (min 5 (min root soil * pawc / precip *
                  seasonality_constant + 1.25))) ^
              (1 / min 5 (min root soil * pawc / precip *
                seasonality_constant + 1.25)))
      else min precip (Kc * eto) / precip := by
  unfold fractp_op
  rw [if_pos ⟨h1, h2, h3, h4, h5, h6, h7, h8⟩]
  simp only [ite_lt_eq_min]

/-- Evaluation of `fractp_op` on an invalid cell: the out-of-domain
sentinel. -/
theorem fractp_op_eq_of_invalid (Kc eto precip root soil pawc veg : ℝ)
    (nodata_dict : NodataDict ℝ) (seasonality_constant : ℝ)
    (h : ¬(Kc ≠ nodata_dict.out_nodata ∧ eto ≠ nodata_dict.eto ∧
      precip ≠ nodata_dict.precip ∧ root ≠ nodata_dict.out_nodata ∧
      soil ≠ nodata_dict.root ∧ pawc ≠ nodata_dict.pawc ∧
      veg ≠ nodata_dict.out_nodata ∧ precip ≠ 0)) :
    fractp_op Kc eto precip root soil pawc veg nodata_dict
      seasonality_constant = nodata_dict.out_nodata := by
  unfold fractp_op
  rw [if_neg h]

/-! ### C1 -/

/-- C1: on every cell where the seven inputs are non-nodata and
`precip ≠ 0`, `fractp_op` returns `min(phi, aet_p)` if the vegetation
flag equals `1` and `min(precip, Kc*ETo)/precip` otherwise, with
`phi = Kc*ETo/precip`, `awc = min(root, soil) * pawc`,
`climate_w = min(5, awc/precip * seasonality + 1.25)` (the cap above
at `5.0`) and
`aet_p = (1 + pet/precip) - (1 + (pet/precip)^climate_w)^(1/climate_w)`;
every other cell is the shared out-of-domain sentinel. -/
theorem fractp_op_formula (Kc eto precip root soil pawc veg : ℝ)
    (nodata_dict : NodataDict ℝ) (seasonality_constant : ℝ) :
    (Kc ≠ nodata_dict.out_nodata → eto ≠ nodata_dict.eto →
      precip ≠ nodata_dict.precip → root ≠ nodata_dict.out_nodata →
      soil ≠ nodata_dict.root → pawc ≠ nodata_dict.pawc →
      veg ≠ nodata_dict.out_nodata → precip ≠ 0 →
      fractp_op Kc eto precip root soil pawc veg nodata_dict
          seasonality_constant =
        if veg = 1 then
          min (Kc * eto / precip)
            ((1 + Kc * eto / precip) -
              (1 + (Kc * eto / precip) ^
                  (min 5 (min root soil * pawc / precip *
                    seasonality_constant + 1.25))) ^
                (1 / min 5 (min root soil * pawc / precip *
                  seasonality_constant + 1.25)))
        else min precip (Kc * eto) / precip) ∧
    (¬(Kc ≠ nodata_dict.out_nodata ∧ eto ≠ nodata_dict.eto ∧
        precip ≠ nodata_dict.precip ∧ root ≠ nodata_dict.out_nodata ∧
        soil ≠ nodata_dict.root ∧ pawc ≠ nodata_dict.pawc ∧
        veg ≠ nodata_dict.out_nodata ∧ precip ≠ 0) →
      fractp_op Kc eto precip root soil pawc veg nodata_dict
        seasonality_constant = nodata_dict.out_nodata) := by
  constructor
  · intro h1 h2 h3 h4 h5 h6 h7 h8
    exact fractp_op_eq_of_valid Kc eto precip root soil pawc veg
      nodata_dict seasonality_constant h1 h2 h3 h4 h5 h6 h7 h8
  · intro h
    exact fractp_op_eq_of_invalid Kc eto precip root soil pawc veg
      nodata_dict seasonality_constant h

/-- Witness for C1 at a concrete non-vegetated cell (`Kc = 0`,
`eto = 0`, `precip = 1`, `veg = 0`, sentinels `-1` and `-9999`):
the result is `min(1, 0)/1 = 0`. -/
theorem fractp_op_formula_witness :
    fractp_op 0 0 1 1 1 0 0 ⟨-1, -9999, -9999, -9999, -9999, -9999⟩ 5 =
      0 := by
  have h := (fractp_op_formula 0 0 1 1 1 0 0
      ⟨-1, -9999, -9999, -9999, -9999, -9999⟩ 5).1
    (by norm_num) (by norm_num) (by norm_num) (by norm_num)
    (by norm_num) (by norm_num) (by norm_num) (by norm_num)
  rw [h, if_neg (by norm_num)]
  norm_num

/-! ### C2 -/

/-- Counterexample to C2 as stated: at the cell `Kc = 1`, `eto = -100`,
`precip = 1`, `root = soil = 1`, `pawc = 0`, `veg = 0` (all seven
inputs non-nodata for the sentinels `-1` and `-9999`, and `precip ≠ 0`)
the value of `fractp_op` is `min(1, -100)/1 = -100`, outside `[0, 1]`:
validity alone does not bound the result without sign conditions on the
inputs. -/
theorem fractp_unit_interval_counterexample :
    ((1 : ℝ) ≠ -1 ∧ (-100 : ℝ) ≠ -9999 ∧ (1 : ℝ) ≠ -9999 ∧
      (1 : ℝ) ≠ -1 ∧ (1 : ℝ) ≠ -9999 ∧ (0 : ℝ) ≠ -9999 ∧
      (0 : ℝ) ≠ -1 ∧ (1 : ℝ) ≠ 0) ∧
    fractp_op 1 (-100) 1 1 1 0 0
      ⟨-1, -9999, -9999, -9999, -9999, -9999⟩ 5 < 0 := by
  refine ⟨by norm_num, ?_⟩
  have h := fractp_op_eq_of_valid 1 (-100) 1 1 1 0 0
    ⟨-1, -9999, -9999, -9999, -9999, -9999⟩ 5
    (by norm_num) (by norm_num) (by norm_num) (by norm_num)
    (by norm_num) (by norm_num) (by norm_num) (by norm_num)
  rw [h, if_neg (by norm_num)]
  rw [show ((1 : ℝ) * -100) = -100 by norm_num]
  rw [min_eq_right (by norm_num : (-100 : ℝ) ≤ 1)]
  norm_num

/-- C2 (amended): on every valid cell whose inputs are physically
meaningful — `Kc ≥ 0`, `ETo ≥ 0`, `precip > 0`, `root ≥ 0`,
`soil ≥ 0`, `pawc ≥ 0` and `seasonality_constant ≥ 0` — the value of
`fractp_op` lies in `[0, 1]` exactly. -/
theorem fractp_unit_interval_amended
    (Kc eto precip root soil pawc veg : ℝ)
    (nodata_dict : NodataDict ℝ) (seasonality_constant : ℝ)
    (h1 : Kc ≠ nodata_dict.out_nodata) (h2 : eto ≠ nodata_dict.eto)
    (h3 : precip ≠ nodata_dict.precip)
    (h4 : root ≠ nodata_dict.out_nodata) (h5 : soil ≠ nodata_dict.root)
    (h6 : pawc ≠ nodata_dict.pawc) (h7 : veg ≠ nodata_dict.out_nodata)
    (hKc : 0 ≤ Kc) (heto : 0 ≤ eto) (hprecip : 0 < precip)
    (hroot : 0 ≤ root) (hsoil : 0 ≤ soil) (hpawc : 0 ≤ pawc)
    (hs : 0 ≤ seasonality_constant) :
    0 ≤ fractp_op Kc eto precip root soil pawc veg nodata_dict
        seasonality_constant ∧
    fractp_op Kc eto precip root soil pawc veg nodata_dict
        seasonality_constant ≤ 1 := by
  rw [fractp_op_eq_of_valid Kc eto precip root soil pawc veg
    nodata_dict seasonality_constant h1 h2 h3 h4 h5 h6 h7
    (ne_of_gt hprecip)]
  set x := Kc * eto / precip with hxdef
  set w := min 5 (min root soil * pawc / precip * seasonality_constant
    + 1.25) with hwdef
  have hx0 : 0 ≤ x := div_nonneg (mul_nonneg hKc heto) hprecip.le
  have hw1 : 1 ≤ w := by
    have hawc : 0 ≤ min root soil * pawc / precip *
        seasonality_constant :=
      mul_nonneg (div_nonneg (mul_nonneg (le_min hroot hsoil) hpawc)
        hprecip.le) hs
    refine le_min (by norm_num) (by linarith)
  have hw0 : w ≠ 0 := by positivity
  have hsuper : 1 + x ^ w ≤ (1 + x) ^ w :=
    one_add_rpow_le_rpow_one_add hx0 hw1
  have hbase : (0 : ℝ) ≤ 1 + x ^ w := by
    have := Real.rpow_nonneg hx0 w
    linarith
  have haet_ub : (1 + x ^ w) ^ (1 / w) ≤ 1 + x := by
    have hmono : ((1 + x ^ w)) ^ (1 / w) ≤ ((1 + x) ^ w) ^ (1 / w) :=
      Real.rpow_le_rpow hbase hsuper (by positivity)
    rwa [← Real.rpow_mul (by linarith : (0 : ℝ) ≤ 1 + x), mul_one_div,
      div_self hw0, Real.rpow_one] at hmono
  have haet_lb : x ≤ (1 + x ^ w) ^ (1 / w) := by
    have hmono : (x ^ w) ^ (1 / w) ≤ (1 + x ^ w) ^ (1 / w) :=
      Real.rpow_le_rpow (Real.rpow_nonneg hx0 w) (by linarith)
        (by positivity)
    rwa [← Real.rpow_mul hx0, mul_one_div, div_self hw0,
      Real.rpow_one] at hmono
  by_cases hveg : veg = 1
  · rw [if_pos hveg]
    constructor
    · exact le_min hx0 (by linarith)
    · calc min x ((1 + x) - (1 + x ^ w) ^ (1 / w)) ≤
          (1 + x) - (1 + x ^ w) ^ (1 / w) := min_le_right _ _
        _ ≤ 1 := by linarith
  · rw [if_neg hveg]
    have hmin0 : 0 ≤ min precip (Kc * eto) :=
      le_min hprecip.le (mul_nonneg hKc heto)
    constructor
    · exact div_nonneg hmin0 hprecip.le
    · rw [div_le_one hprecip]
      exact min_le_left _ _

/-- Witness for C2 (amended) at the cell `Kc = 1`, `eto = 1`,
`precip = 2`, `root = soil = 1`, `pawc = 0`, `veg = 0`, seasonality
constant `5`. -/
theorem fractp_unit_interval_amended_witness :
    0 ≤ fractp_op 1 1 2 1 1 0 0
        ⟨-1, -9999, -9999, -9999, -9999, -9999⟩ 5 ∧
    fractp_op 1 1 2 1 1 0 0
        ⟨-1, -9999, -9999, -9999, -9999, -9999⟩ 5 ≤ 1 :=
  fractp_unit_interval_amended 1 1 2 1 1 0 0
    ⟨-1, -9999, -9999, -9999, -9999, -9999⟩ 5
    (by norm_num) (by norm_num) (by norm_num) (by norm_num)
    (by norm_num) (by norm_num) (by norm_num) (by norm_num)
    (by norm_num) (by norm_num) (by norm_num) (by norm_num)
    (by norm_num) (by norm_num)

/-! ### C3 -/

/-- C3: `aet_op` returns `fractp * precip` when `fractp ≥ 0` and
`precip` is not the precipitation nodata (a non-negativity test, not an
exact sentinel match), else the out-of-domain sentinel; `wyield_op`
returns `(1 - fractp) * precip` when `fractp` is not exactly the
out-of-domain sentinel and `precip` is not the precipitation nodata,
else the sentinel; hence `AET = fractp * precip` and
`wyield = (1 - fractp) * precip` hold exactly on every valid cell. -/
theorem aet_wyield_identities (fractp precip : ℚ)
    (nodata_dict : NodataDict ℚ) :
    (0 ≤ fractp → precip ≠ nodata_dict.precip →
      aet_op fractp precip nodata_dict = fractp * precip) ∧
    (¬(0 ≤ fractp ∧ precip ≠ nodata_dict.precip) →
      aet_op fractp precip nodata_dict = nodata_dict.out_nodata) ∧
    (fractp ≠ nodata_dict.out_nodata → precip ≠ nodata_dict.precip →
      wyield_op fractp precip nodata_dict = (1 - fractp) * precip) ∧
    (fractp = nodata_dict.out_nodata ∨ precip = nodata_dict.precip →
      wyield_op fractp precip nodata_dict = nodata_dict.out_nodata) := by
  refine ⟨fun h1 h2 => ?_, fun h => ?_, fun h1 h2 => ?_, fun h => ?_⟩
  · simp [aet_op, h1, h2]
  · simp [aet_op, h]
  · have : ¬(fractp = nodata_dict.out_nodata ∨
        precip = nodata_dict.precip) := by tauto
    simp [wyield_op, this]
  · simp [wyield_op, h]

/-- Witness for C3 at a concrete cell: `fractp = 1/2`, `precip = 10`,
sentinels `out_nodata = -1`, precipitation nodata `-9999`. -/
theorem aet_wyield_identities_witness :
    aet_op (1/2) 10 ⟨-1, -9999, -9999, -9999, -9999, -9999⟩ = 5 ∧
    wyield_op (1/2) 10 ⟨-1, -9999, -9999, -9999, -9999, -9999⟩ = 5 := by
  have h := aet_wyield_identities (1/2) 10
    ⟨-1, -9999, -9999, -9999, -9999, -9999⟩
  constructor
  · rw [h.1 (by norm_num) (by norm_num)]; norm_num
  · rw [h.2.2.1 (by norm_num) (by norm_num)]; norm_num

/-! ### C9 -/

/-- C9: for every land-cover code of the biophysical table, the
root-depth reclassification lookup is the table's `root_depth` when the
code's vegetation flag is `1` and the neutral constant `1.0` otherwise,
while the `Kc` and vegetation-flag lookups take the table values
verbatim. -/
theorem reclass_dict_policy (bio_dict : List (ℤ × BioRow)) (code : ℤ)
    (row : BioRow) (h : bio_dict.lookup code = some row) :
    (build_reclass_dicts bio_dict).1.lookup code = some row.kc ∧
    (build_reclass_dicts bio_dict).2.1.lookup code =
      some (if row.lulc_veg = 1 then row.root_depth else 1) ∧
    (build_reclass_dicts bio_dict).2.2.lookup code = some row.lulc_veg := by
  refine ⟨?_, ?_, ?_⟩
  · exact lookup_map_snd (fun r => r.kc) bio_dict code row h
  · exact lookup_map_snd
      (fun r => if r.lulc_veg = 1 then r.root_depth else 1)
      bio_dict code row h
  · exact lookup_map_snd (fun r => r.lulc_veg) bio_dict code row h

/-- Witness for C9 on a two-row table: code `1` vegetated with root
depth `300`, code `2` non-vegetated (root-depth lookup `1`). -/
theorem reclass_dict_policy_witness :
    (build_reclass_dicts
        [(1, ⟨0.8, 300, 1⟩), (2, ⟨0.3, 700, 0⟩)]).1.lookup 2 =
      some 0.3 ∧
    (build_reclass_dicts
        [(1, ⟨0.8, 300, 1⟩), (2, ⟨0.3, 700, 0⟩)]).2.1.lookup 2 =
      some 1 ∧
    (build_reclass_dicts
        [(1, ⟨0.8, 300, 1⟩), (2, ⟨0.3, 700, 0⟩)]).2.2.lookup 2 =
      some 0 := by
  have h := reclass_dict_policy
    [(1, ⟨0.8, 300, 1⟩), (2, ⟨0.3, 700, 0⟩)] 2 ⟨0.3, 700, 0⟩ rfl
  refine ⟨h.1, ?_, h.2.2⟩
  have h2 := h.2.1
  norm_num at h2
  exact h2

/-! ### C4 -/

/-- C4: for every watershed or subwatershed feature holding a
`wyield_mn` field, `compute_water_yield_volume` sets
`wyield_vol = wyield_mn * polygon_area / 1000` on the same feature; and
once `consum_vol` and `consum_mn` are attached,
`compute_rsupply_volume` sets `rsupply_vl = wyield_vol - consum_vol`
and `rsupply_mn = wyield_mn - consum_mn` exactly on the same feature. -/
theorem volume_and_rsupply_fields (fs gs fs2 gs2 : List Feature)
    (h1 : compute_water_yield_volume fs = some gs)
    (h2 : compute_rsupply_volume fs2 = some gs2) :
    List.Forall₂ (fun f g => ∀ m, getField f "wyield_mn" = some m →
      getField g "wyield_vol" = some (m * f.area / 1000)) fs gs ∧
    List.Forall₂ (fun f g => ∀ mn vol cv cm,
      getField f "wyield_mn" = some mn →
      getField f "wyield_vol" = some vol →
      getField f "consum_vol" = some cv →
      getField f "consum_mn" = some cm →
      getField g "rsupply_vl" = some (vol - cv) ∧
      getField g "rsupply_mn" = some (mn - cm)) fs2 gs2 := by
  constructor
  · have h := mapM_option_forall₂ water_yield_volume_feature fs gs h1
    refine h.imp ?_
    intro f g hfg m hm
    unfold water_yield_volume_feature at hfg
    rw [hm] at hfg
    simp only [Option.map_some', Option.some.injEq] at hfg
    subst hfg
    exact getField_setField_same _ _ _
  · have h := mapM_option_forall₂ rsupply_volume_feature fs2 gs2 h2
    refine h.imp ?_
    intro f g hfg mn vol cv cm hmn hvol hcv hcm
    unfold rsupply_volume_feature at hfg
    rw [hmn, hvol, hcv, hcm] at hfg
    simp only [Option.bind_some, Option.some.injEq, Option.bind_eq_bind,
      Option.pure_def, Option.some_bind] at hfg
    subst hfg
    constructor
    · rw [getField_setField_ne _ _ _ _ (by decide)]
      exact getField_setField_same _ _ _
    · exact getField_setField_same _ _ _

/-- Witness for C4 on one watershed feature with area `2000`,
`wyield_mn = 3` (so `wyield_vol = 6`), and one feature with
`wyield_vol = 16`, `consum_vol = 5`, `wyield_mn = 8`, `consum_mn = 2`
(so `rsupply_vl = 11`, `rsupply_mn = 6`). -/
theorem volume_and_rsupply_fields_witness :
    getField (⟨0, 1, 2000, [("wyield_vol", 6), ("wyield_mn", 3)]⟩ :
      Feature) "wyield_vol" = some 6 ∧
    getField (⟨0, 1, 2000,
      [("rsupply_mn", 6), ("rsupply_vl", 11), ("wyield_mn", 8),
       ("wyield_vol", 16), ("consum_vol", 5), ("consum_mn", 2)]⟩ :
      Feature) "rsupply_vl" = some 11 ∧
    getField (⟨0, 1, 2000,
      [("rsupply_mn", 6), ("rsupply_vl", 11), ("wyield_mn", 8),
       ("wyield_vol", 16), ("consum_vol", 5), ("consum_mn", 2)]⟩ :
      Feature) "rsupply_mn" = some 6 := by
  have hcw : compute_water_yield_volume
      [⟨0, 1, 2000, [("wyield_mn", 3)]⟩] =
      some [⟨0, 1, 2000, [("wyield_vol", 6), ("wyield_mn", 3)]⟩] := by
    simp [compute_water_yield_volume, List.mapM, List.mapM.loop,
      water_yield_volume_feature, getField, setField, List.lookup]
    norm_num
  have hcr : compute_rsupply_volume
      [⟨0, 1, 2000, [("wyield_mn", 8), ("wyield_vol", 16),
        ("consum_vol", 5), ("consum_mn", 2)]⟩] =
      some [⟨0, 1, 2000,
        [("rsupply_mn", 6), ("rsupply_vl", 11), ("wyield_mn", 8),
         ("wyield_vol", 16), ("consum_vol", 5), ("consum_mn", 2)]⟩] := by
    simp [compute_rsupply_volume, List.mapM, List.mapM.loop,
      rsupply_volume_feature, getField, setField, List.lookup]
    norm_num
  have h := volume_and_rsupply_fields
    [⟨0, 1, 2000, [("wyield_mn", 3)]⟩]
    [⟨0, 1, 2000, [("wyield_vol", 6), ("wyield_mn", 3)]⟩]
    [⟨0, 1, 2000, [("wyield_mn", 8), ("wyield_vol", 16),
      ("consum_vol", 5), ("consum_mn", 2)]⟩]
    [⟨0, 1, 2000,
      [("rsupply_mn", 6), ("rsupply_vl", 11), ("wyield_mn", 8),
       ("wyield_vol", 16), ("consum_vol", 5), ("consum_mn", 2)]⟩]
    hcw hcr
  rcases h with ⟨h1, h2⟩
  rcases h1 with _ | ⟨hfg1, _⟩
  rcases h2 with _ | ⟨hfg2, _⟩
  have e1 := hfg1 3 (by decide)
  have e2 := hfg2 8 16 5 2 (by decide) (by decide) (by decide) (by decide)
  refine ⟨e1.trans ?_, e2.1.trans ?_, e2.2.trans ?_⟩
  · show some ((3 : ℚ) * 2000 / 1000) = some 6
    norm_num
  · show some ((16 : ℚ) - 5) = some 11
    norm_num
  · show some ((8 : ℚ) - 2) = some 6
    norm_num

/-! ### C5 -/

/-- C5: for every watershed feature with a `rsupply_vl` field and
valuation parameters, `compute_watershed_valuation` writes
`hp_energy = efficiency * fraction * height * rsupply_vl * 0.00272` and
`hp_val = (kw_price * energy - cost) * dsum` with `disc = discount/100`,
`ratio = 1/(1+disc)` and `dsum = (1 - ratio^time_span)/(1 - ratio)`
when `ratio ≠ 1`, else `dsum = 0`. -/
theorem watershed_valuation_fields (val_dict : List (ℤ × ValRow))
    (fs gs : List Feature)
    (h : compute_watershed_valuation fs val_dict = some gs) :
    List.Forall₂ (fun f g => ∀ r row,
      getField f "rsupply_vl" = some r →
      val_dict.lookup f.ws_id = some row →
      getField g "hp_energy" = some
        (row.efficiency * row.fraction * row.height * r * 0.00272) ∧
      getField g "hp_val" = some
        ((row.kw_price *
            (row.efficiency * row.fraction * row.height * r * 0.00272) -
          row.cost) *
         (if 1 / (1 + row.discount / 100) ≠ 1 then
            (1 - (1 / (1 + row.discount / 100)) ^ row.time_span) /
              (1 - 1 / (1 + row.discount / 100))
          else 0))) fs gs := by
  have hall := mapM_option_forall₂ (watershed_valuation_feature val_dict)
    fs gs h
  refine hall.imp ?_
  intro f g hfg r row hr hrow
  unfold watershed_valuation_feature at hfg
  rw [hr, hrow] at hfg
  simp only [Option.bind_some, Option.some.injEq, Option.bind_eq_bind,
    Option.pure_def, Option.some_bind] at hfg
  subst hfg
  constructor
  · rw [getField_setField_ne _ _ _ _ (by decide)]
    exact getField_setField_same _ _ _
  · exact getField_setField_same _ _ _

/-- Witness for C5: one watershed (`ws_id = 7`) with
`rsupply_vl = 1000`, `efficiency = 1`, `fraction = 1`, `height = 100`,
`discount = 100` (so `ratio = 1/2`), `time_span = 2`
(so `dsum = 3/2`), `cost = 0`, `kw_price = 1`:
`hp_energy = 272` and `hp_val = 408`. -/
theorem watershed_valuation_fields_witness :
    getField (setField (setField
        (⟨0, 7, 2000, [("rsupply_vl", 1000)]⟩ : Feature)
        "hp_energy" (1 * 1 * 100 * 1000 * 0.00272)) "hp_val"
        ((1 * (1 * 1 * 100 * 1000 * 0.00272) - 0) *
          ((1 - (1 / (1 + 100 / 100)) ^ 2) / (1 - 1 / (1 + 100 / 100)))))
      "hp_energy" = some 272 ∧
    getField (setField (setField
        (⟨0, 7, 2000, [("rsupply_vl", 1000)]⟩ : Feature)
        "hp_energy" (1 * 1 * 100 * 1000 * 0.00272)) "hp_val"
        ((1 * (1 * 1 * 100 * 1000 * 0.00272) - 0) *
          ((1 - (1 / (1 + 100 / 100)) ^ 2) / (1 - 1 / (1 + 100 / 100)))))
      "hp_val" = some 408 := by
  have h := watershed_valuation_fields [(7, ⟨1, 1, 100, 100, 2, 0, 1⟩)]
    [⟨0, 7, 2000, [("rsupply_vl", 1000)]⟩]
    [setField (setField (⟨0, 7, 2000, [("rsupply_vl", 1000)]⟩ : Feature)
        "hp_energy" (1 * 1 * 100 * 1000 * 0.00272)) "hp_val"
        ((1 * (1 * 1 * 100 * 1000 * 0.00272) - 0) *
          ((1 - (1 / (1 + 100 / 100)) ^ 2) / (1 - 1 / (1 + 100 / 100))))]
    (by simp [compute_watershed_valuation, List.mapM,
      List.mapM.loop, watershed_valuation_feature, getField, setField,
      List.lookup])
  rcases h with _ | ⟨hfg, _⟩
  have e := hfg 1000 ⟨1, 1, 100, 100, 2, 0, 1⟩ (by decide) (by decide)
  refine ⟨e.1.trans ?_, e.2.trans ?_⟩
  · norm_num
  · norm_num

/-! ### C6 -/

theorem missing_mem_iff (lulc table : List ℤ) (nd c : ℤ) :
    (c ∈ (lulc.filter
        (fun x => !((table ++ [nd]).contains x))).dedup) ↔
      c ∈ lulc ∧ c ∉ table ∧ c ≠ nd := by
  simp [List.mem_dedup, List.mem_filter, not_or]

theorem missing_nil_iff (lulc table : List ℤ) (nd : ℤ) :
    (lulc.filter (fun x => !((table ++ [nd]).contains x))).dedup = [] ↔
      ∀ c ∈ lulc, c ∈ table ∨ c = nd := by
  rw [List.eq_nil_iff_forall_not_mem]
  constructor
  · intro h c hc
    have := h c
    rw [missing_mem_iff] at this
    by_contra hcon
    push_neg at hcon
    exact this ⟨hc, hcon.1, hcon.2⟩
  · intro h c
    rw [missing_mem_iff]
    rintro ⟨hc, hnt, hnn⟩
    rcases h c hc with h1 | h1
    · exact hnt h1
    · exact hnn h1

/-- C6: the land-cover coverage check accepts exactly when every
distinct value of the clipped land-cover grid appears in the
biophysical code set or is the grid's own nodata sentinel, and — when a
demand table was supplied — likewise for the demand code set; when it
rejects, the raised error enumerates, sorted, every code missing from
each table; and the check task is a transitive dependency of every
reclassification task and of every per-pixel operator task, so it runs
before any of them executes. -/
theorem lucode_coverage_check (lulc_values bio_table_codes : List ℤ)
    (demand_table_codes : Option (List ℤ)) (lulc_nodata : ℤ) :
    (execute_lucode_check lulc_values bio_table_codes
        demand_table_codes lulc_nodata = Except.ok () ↔
      (∀ c ∈ lulc_values, c ∈ bio_table_codes ∨ c = lulc_nodata) ∧
      (∀ demand_codes, demand_table_codes = some demand_codes →
        ∀ c ∈ lulc_values, c ∈ demand_codes ∨ c = lulc_nodata)) ∧
    (∀ mb md, execute_lucode_check lulc_values bio_table_codes
        demand_table_codes lulc_nodata = Except.error (mb, md) →
      (List.Sorted (fun a b : ℤ => a ≤ b) mb ∧
        ∀ c, c ∈ mb ↔ c ∈ lulc_values ∧ c ∉ bio_table_codes ∧
          c ≠ lulc_nodata) ∧
      (List.Sorted (fun a b : ℤ => a ≤ b) md ∧
        ∀ c, c ∈ md ↔ ∃ demand_codes,
          demand_table_codes = some demand_codes ∧ c ∈ lulc_values ∧
          c ∉ demand_codes ∧ c ≠ lulc_nodata)) ∧
    (∀ t ∈ reclassifyTasks,
      taskDependsOn t TaskId.checkMissingLucodes) ∧
    (∀ t ∈ pixelOperatorTasks,
      taskDependsOn t TaskId.checkMissingLucodes) := by
  refine ⟨?_, ?_, ?_, ?_⟩
  · rcases demand_table_codes with _ | demand_codes
    · simp only [execute_lucode_check, _check_missing_lucodes,
        Option.map_none', and_true, List.mergeSort_nil]
      constructor
      · intro h
        by_cases hc : (lulc_values.filter (fun c =>
            !((bio_table_codes ++ [lulc_nodata]).contains c))).dedup =
              []
        · exact ⟨(missing_nil_iff _ _ _).mp hc, by simp⟩
        · rw [if_neg hc] at h
          cases h
      · intro h
        rw [if_pos ((missing_nil_iff _ _ _).mpr h.1)]
    · simp only [execute_lucode_check, _check_missing_lucodes,
        Option.map_some']
      constructor
      · intro h
        by_cases hc : (lulc_values.filter (fun x =>
            !((bio_table_codes ++ [lulc_nodata]).contains x))).dedup =
              [] ∧ (lulc_values.filter (fun x =>
            !((demand_codes ++ [lulc_nodata]).contains x))).dedup = []
        · refine ⟨(missing_nil_iff _ _ _).mp hc.1, ?_⟩
          rintro d hd
          cases hd
          exact (missing_nil_iff _ _ _).mp hc.2
        · rw [if_neg hc] at h
          cases h
      · intro h
        rw [if_pos ⟨(missing_nil_iff _ _ _).mpr h.1,
          (missing_nil_iff _ _ _).mpr (h.2 demand_codes rfl)⟩]
  · intro mb md h
    rcases demand_table_codes with _ | demand_codes
    · simp only [execute_lucode_check, _check_missing_lucodes,
        Option.map_none', and_true, List.mergeSort_nil] at h
      by_cases hc : (lulc_values.filter (fun c =>
          !((bio_table_codes ++ [lulc_nodata]).contains c))).dedup =
            []
      · rw [if_pos hc] at h
        cases h
      · rw [if_neg hc] at h
        injection h with h
        injection h with hmb hmd
        subst hmb
        subst hmd
        refine ⟨⟨sorted_int_mergeSort _, ?_⟩, ⟨by simp, ?_⟩⟩
        · intro c
          rw [List.mem_mergeSort, missing_mem_iff]
        · intro c
          simp
    · simp only [execute_lucode_check, _check_missing_lucodes,
        Option.map_some'] at h
      by_cases hc : (lulc_values.filter (fun x =>
          !((bio_table_codes ++ [lulc_nodata]).contains x))).dedup =
            [] ∧ (lulc_values.filter (fun x =>
          !((demand_codes ++ [lulc_nodata]).contains x))).dedup = []
      · rw [if_pos hc] at h
        cases h
      · rw [if_neg hc] at h
        injection h with h
        injection h with hmb hmd
        subst hmb
        subst hmd
        refine ⟨⟨sorted_int_mergeSort _, ?_⟩,
          ⟨sorted_int_mergeSort _, ?_⟩⟩
        · intro c
          rw [List.mem_mergeSort, missing_mem_iff]
        · intro c
          rw [List.mem_mergeSort, missing_mem_iff]
          constructor
          · intro hcm
            exact ⟨demand_codes, rfl, hcm⟩
          · rintro ⟨d, hd, hcm⟩
            cases hd
            exact hcm
  · intro t ht
    simp only [reclassifyTasks, List.mem_cons, List.mem_singleton,
      List.not_mem_nil, or_false] at ht
    rcases ht with rfl | rfl | rfl | rfl
    · exact Relation.TransGen.single
        (show TaskId.checkMissingLucodes ∈
          dependent_task_list TaskId.createKcRaster by decide)
    · exact Relation.TransGen.single
        (show TaskId.checkMissingLucodes ∈
          dependent_task_list TaskId.createRootRaster by decide)
    · exact Relation.TransGen.single
        (show TaskId.checkMissingLucodes ∈
          dependent_task_list TaskId.createVegRaster by decide)
    · exact Relation.TransGen.single
        (show TaskId.checkMissingLucodes ∈
          dependent_task_list TaskId.createDemandRaster by decide)
  · intro t ht
    simp only [pixelOperatorTasks, List.mem_cons, List.mem_singleton,
      List.not_mem_nil, or_false] at ht
    rcases ht with rfl | rfl | rfl | rfl
    · exact Relation.TransGen.head
        (show TaskId.createKcRaster ∈
          dependent_task_list TaskId.calculatePet by decide)
        (Relation.TransGen.single
          (show TaskId.checkMissingLucodes ∈
            dependent_task_list TaskId.createKcRaster by decide))
    · exact Relation.TransGen.head
        (show TaskId.createKcRaster ∈
          dependent_task_list TaskId.calculateFractp by decide)
        (Relation.TransGen.single
          (show TaskId.checkMissingLucodes ∈
            dependent_task_list TaskId.createKcRaster by decide))
    · exact Relation.TransGen.head
        (show TaskId.calculateFractp ∈
          dependent_task_list TaskId.calculateWyield by decide)
        (Relation.TransGen.head
          (show TaskId.createKcRaster ∈
            dependent_task_list TaskId.calculateFractp by decide)
          (Relation.TransGen.single
            (show TaskId.checkMissingLucodes ∈
              dependent_task_list TaskId.createKcRaster by decide)))
    · exact Relation.TransGen.head
        (show TaskId.calculateFractp ∈
          dependent_task_list TaskId.calculateAet by decide)
        (Relation.TransGen.head
          (show TaskId.createKcRaster ∈
            dependent_task_list TaskId.calculateFractp by decide)
          (Relation.TransGen.single
            (show TaskId.checkMissingLucodes ∈
              dependent_task_list TaskId.createKcRaster by decide)))

/-- Witness for C6: grid values `{1, 2, 3}` with nodata `3`,
biophysical codes `{1}`, demand codes `{2}`: the check raises with
missing biophysical code `2` and missing demand code `1`, and the
per-pixel `fractp` task transitively depends on the check task. -/
theorem lucode_coverage_check_witness :
    execute_lucode_check [1, 2, 3] [1] (some [2]) 3 =
      Except.error ([2], [1]) ∧
    (∀ c : ℤ, c ∈ ([2] : List ℤ) ↔
      c ∈ ([1, 2, 3] : List ℤ) ∧ c ∉ ([1] : List ℤ) ∧ c ≠ 3) ∧
    taskDependsOn TaskId.calculateFractp TaskId.checkMissingLucodes := by
  have heq : execute_lucode_check [1, 2, 3] [1] (some [2]) 3 =
      Except.error ([2], [1]) := by
    simp [execute_lucode_check, _check_missing_lucodes, List.filter,
      List.dedup, List.contains]
  have h := lucode_coverage_check [1, 2, 3] [1] (some [2]) 3
  exact ⟨heq, fun c => ((h.2.1 [2] [1] heq).1.2 c),
    h.2.2.2 TaskId.calculateFractp (by decide)⟩

/-! ### C7 -/

/-- C7: when a valuation table is supplied, every `ws_id` of the
watershed vector must resolve in it; if all resolve no error is raised,
and otherwise `execute` raises an error enumerating every missing
`ws_id` in sorted order, doing so before `utils.make_directories`
creates any output directory and before any task is scheduled on the
graph. -/
theorem valuation_wsid_check (valuation_keys watershed_ws_ids : List ℤ) :
    ((∀ i ∈ watershed_ws_ids, i ∈ valuation_keys) →
      (execute_head (some valuation_keys) watershed_ws_ids).2 = none) ∧
    ((∃ i ∈ watershed_ws_ids, i ∉ valuation_keys) →
      ∃ err,
        (execute_head (some valuation_keys) watershed_ws_ids).2 =
          some err ∧
        List.Sorted (fun a b : ℤ => a ≤ b) err ∧
        (∀ i, i ∈ err ↔ i ∈ watershed_ws_ids ∧ i ∉ valuation_keys) ∧
        ExecEvent.makeDirectories ∉
          (execute_head (some valuation_keys) watershed_ws_ids).1 ∧
        (∀ t, ExecEvent.scheduleTask t ∉
          (execute_head (some valuation_keys) watershed_ws_ids).1)) := by
  constructor
  · intro h
    have hnil : watershed_ws_ids.filter
        (fun i => !(valuation_keys.contains i)) = [] := by
      rw [List.filter_eq_nil_iff]
      intro a ha
      simp [h a ha]
    simp only [execute_head]
    rw [if_pos hnil]
  · intro hex
    have hne : watershed_ws_ids.filter
        (fun i => !(valuation_keys.contains i)) ≠ [] := by
      rcases hex with ⟨i, hi, hni⟩
      intro hnil
      rw [List.filter_eq_nil_iff] at hnil
      have := hnil i hi
      simp [hni] at this
    refine ⟨(watershed_ws_ids.filter
        (fun i => !(valuation_keys.contains i))).mergeSort
          (fun a b => decide (a ≤ b)), ?_, sorted_int_mergeSort _,
      ?_, ?_, ?_⟩
    · simp only [execute_head]
      rw [if_neg hne]
    · intro i
      rw [List.mem_mergeSort]
      simp [List.mem_filter]
    · simp only [execute_head]
      rw [if_neg hne]
      simp
    · intro t
      simp only [execute_head]
      rw [if_neg hne]
      simp

/-- Witness for C7: watershed ids `{1, 3, 2}` against valuation keys
`{1, 2}` — id `3` is missing, so the check raises. -/
theorem valuation_wsid_check_witness :
    (∃ i ∈ ([1, 3, 2] : List ℤ), i ∉ ([1, 2] : List ℤ)) ∧
    (∃ err, (execute_head (some [1, 2]) [1, 3, 2]).2 = some err ∧
      List.Sorted (fun a b : ℤ => a ≤ b) err ∧
      (∀ i, i ∈ err ↔ i ∈ ([1, 3, 2] : List ℤ) ∧
        i ∉ ([1, 2] : List ℤ)) ∧
      ExecEvent.makeDirectories ∉
        (execute_head (some [1, 2]) [1, 3, 2]).1 ∧
      (∀ t, ExecEvent.scheduleTask t ∉
        (execute_head (some [1, 2]) [1, 3, 2]).1)) :=
  ⟨⟨3, by decide, by decide⟩,
   (valuation_wsid_check [1, 2] [1, 3, 2]).2 ⟨3, by decide, by decide⟩⟩

/-! ### C10 -/

theorem zonal_mean_feature_eq (stats_map : List (ℕ × ZonalStats))
    (field_name : String) (feature : Feature) (st : ZonalStats)
    (hst : stats_map.lookup feature.fid = some st) :
    zonal_stats_field_feature stats_map field_name "mean" feature =
      if st.count = 0 then Except.error AggError.zeroDivisionError
      else Except.ok
        (setField feature field_name (st.sum / st.count)) := by
  unfold zonal_stats_field_feature
  rw [hst]
  simp

/-- C10: attaching a `mean` field computes `sum / count` from the
pickled zonal statistics with no guard on `count`: when every feature
FID resolves and every count is nonzero the aggregation succeeds and
writes `sum / count`, but a feature whose statistics have `count = 0`
makes the mean computation divide by zero and the aggregation fails
(ZeroDivisionError) instead of writing a sentinel value. -/
theorem zonal_mean_no_count_guard (features : List Feature)
    (stats_map : List (ℕ × ZonalStats)) (field_name : String)
    (hkeys : ∀ f ∈ features, ∃ st,
      stats_map.lookup f.fid = some st) :
    ((∃ f ∈ features, ∃ st, stats_map.lookup f.fid = some st ∧
        st.count = 0) →
      _add_zonal_stats_dict_to_shape features stats_map field_name
        "mean" = Except.error AggError.zeroDivisionError) ∧
    ((∀ f ∈ features, ∀ st, stats_map.lookup f.fid = some st →
        st.count ≠ 0) →
      ∃ gs, _add_zonal_stats_dict_to_shape features stats_map
          field_name "mean" = Except.ok gs ∧
        List.Forall₂ (fun f g => ∀ st,
          stats_map.lookup f.fid = some st →
          getField g field_name = some (st.sum / st.count))
          features gs) := by
  constructor
  · rintro ⟨f, hf, st, hst, hc⟩
    unfold _add_zonal_stats_dict_to_shape
    apply mapM_except_error_of_mem
    · intro a ha
      obtain ⟨sta, hsta⟩ := hkeys a ha
      rw [zonal_mean_feature_eq stats_map field_name a sta hsta]
      by_cases hz : sta.count = 0
      · left
        rw [if_pos hz]
      · right
        exact ⟨_, by rw [if_neg hz]⟩
    · refine ⟨f, hf, ?_⟩
      rw [zonal_mean_feature_eq stats_map field_name f st hst,
        if_pos hc]
  · intro hpos
    have hall : ∀ f ∈ features, ∃ b,
        zonal_stats_field_feature stats_map field_name "mean" f =
          Except.ok b := by
      intro f hf
      obtain ⟨st, hst⟩ := hkeys f hf
      exact ⟨_, by
        rw [zonal_mean_feature_eq stats_map field_name f st hst,
          if_neg (hpos f hf st hst)]⟩
    obtain ⟨gs, hgs⟩ := mapM_except_ok_of_all _ features hall
    refine ⟨gs, hgs, ?_⟩
    have h2 := mapM_except_forall₂ _ features gs hgs
    refine h2.imp ?_
    intro f g hfg st hst
    rw [zonal_mean_feature_eq stats_map field_name f st hst] at hfg
    by_cases hz : st.count = 0
    · rw [if_pos hz] at hfg
      cases hfg
    · rw [if_neg hz] at hfg
      injection hfg with hfg
      subst hfg
      exact getField_setField_same _ _ _

/-- Witness for C10: one feature with FID `0`; with statistics
`sum = 5, count = 0` the mean aggregation fails with a division by
zero, while with `sum = 6, count = 2` it succeeds. -/
theorem zonal_mean_no_count_guard_witness :
    _add_zonal_stats_dict_to_shape [⟨0, 1, 9, []⟩]
      [(0, ⟨5, 0, none, none, 3⟩)] "AET_mn" "mean" =
      Except.error AggError.zeroDivisionError ∧
    (∃ gs, _add_zonal_stats_dict_to_shape [⟨0, 1, 9, []⟩]
        [(0, ⟨6, 2, some 1, some 5, 0⟩)] "AET_mn" "mean" =
        Except.ok gs ∧
      List.Forall₂ (fun (f g : Feature) => ∀ st : ZonalStats,
        List.lookup f.fid [(0, (⟨6, 2, some 1, some 5, 0⟩ :
          ZonalStats))] = some st →
        getField g "AET_mn" = some (st.sum / st.count))
        [⟨0, 1, 9, []⟩] gs) := by
  constructor
  · exact (zonal_mean_no_count_guard [⟨0, 1, 9, []⟩]
      [(0, ⟨5, 0, none, none, 3⟩)] "AET_mn"
      (by
        intro f hf
        simp only [List.mem_singleton] at hf
        subst hf
        exact ⟨⟨5, 0, none, none, 3⟩, rfl⟩)).1
      ⟨⟨0, 1, 9, []⟩, by simp, ⟨5, 0, none, none, 3⟩, rfl, rfl⟩
  · exact (zonal_mean_no_count_guard [⟨0, 1, 9, []⟩]
      [(0, ⟨6, 2, some 1, some 5, 0⟩)] "AET_mn"
      (by
        intro f hf
        simp only [List.mem_singleton] at hf
        subst hf
        exact ⟨⟨6, 2, some 1, some 5, 0⟩, rfl⟩)).2
      (by
        intro f hf st hst
        simp only [List.mem_singleton] at hf
        subst hf
        rw [show List.lookup (Feature.fid ⟨0, 1, 9, []⟩)
            [(0, (⟨6, 2, some 1, some 5, 0⟩ : ZonalStats))] =
            some ⟨6, 2, some 1, some 5, 0⟩ from rfl] at hst
        injection hst with hst
        subst hst
        decide)

/-! ### C8 -/

/-- C8: `zonal_stats_tofile` requests `ignore_nodata=False`, so the
per-polygon statistics handed to the aggregation stage account for
nodata cells.  At the failing input of one polygon covering the cells
`{2, nodata}` (nodata sentinel `-1`) the stored statistics are
`sum = 1`, `count = 2`, `min = -1`, whereas the statistics over valid
cells only (ignoring nodata, as the claim states) would be `sum = 2`,
`count = 1`, `min = 2`. -/
theorem zonal_stats_nodata_divergence :
    zonal_stats_tofile (some (-1)) [(1, [2, -1])] =
      [(1, { sum := 1, count := 2, min := some (-1), max := some 2,
             nodata_count := 1 })] ∧
    zonal_statistics true (some (-1)) [2, -1] =
      { sum := 2, count := 1, min := some 2, max := some 2,
        nodata_count := 1 } := by
  have hne : ((2 : ℚ) == -1) = false :=
    beq_eq_false_iff_ne.mpr (by norm_num)
  constructor
  · simp only [zonal_stats_tofile, zonal_statistics, List.map_cons,
      List.map_nil, Bool.false_eq_true, if_false]
    norm_num [List.min?, List.max?, List.foldl, min_def, max_def,
      List.filter, hne, beq_self_eq_true]
  · simp only [zonal_statistics, if_true]
    norm_num [List.min?, List.max?, List.foldl, min_def, max_def,
      List.filter, hne, beq_self_eq_true]

end HydropowerWaterYield
